import Mathlib

/-!
Verification of the ultrasonic-sensor replay program (src/ultra.py).

The program reconstructs a robot trajectory by dead reckoning from a
sequence of movement labels, projects 24 fixed-bearing ultrasonic range
readings into world coordinates, and renders one frame at a time.

The embedding below follows the source:
* `nextPose` is the body of the movement update loop (ultra.py lines 115-137);
* `buildTrajectory` is the fold of that loop starting from position (0,0)
  and heading 0 (lines 109-140); the source accumulates positions and
  headings by repeated appends, which is the same list;
* `FVal` models a float reading: either not-a-number (a CSV field that
  failed numeric coercion, line 64) or a finite real value; IEEE semantics
  of the operations the program performs on readings are spelled out on it
  (`nan < t` is false, `nan * x` and `nan + x` are `nan`);
* `projectPt` is the sensor-to-global projection (lines 222-230);
* `renderAt` collects the per-frame visual state the update callback
  draws (lines 164-235), and `update` models calling the callback with an
  arbitrary integer frame index: pandas `.loc` on the default RangeIndex
  raises a KeyError for any label outside 0..N-1, modelled as `none`.
-/

/-- A float scalar as the program sees it: not-a-number or a finite real. -/
inductive FVal where
  | nan : FVal
  | fin : ℝ → FVal

/-- IEEE addition restricted to the cases the program uses: any operand
being not-a-number makes the result not-a-number. -/
noncomputable def FVal.add : FVal → FVal → FVal
  | FVal.nan, _ => FVal.nan
  | _, FVal.nan => FVal.nan
  | FVal.fin a, FVal.fin b => FVal.fin (a + b)

/-- IEEE multiplication: any operand being not-a-number makes the result
not-a-number. -/
noncomputable def FVal.mul : FVal → FVal → FVal
  | FVal.nan, _ => FVal.nan
  | _, FVal.nan => FVal.nan
  | FVal.fin a, FVal.fin b => FVal.fin (a * b)

/-- IEEE `<` against a real threshold: a not-a-number compares false. -/
def FVal.lt : FVal → ℝ → Prop
  | FVal.nan, _ => False
  | FVal.fin a, t => a < t

/-- `np.fmax`: the pairwise reduction step of `np.nanmax`, ignoring
not-a-number operands. -/
noncomputable def fmax : FVal → FVal → FVal
  | FVal.nan, b => b
  | a, FVal.nan => a
  | FVal.fin a, FVal.fin b => FVal.fin (max a b)

/-- `np.nanmax` over a list of readings: the maximum ignoring
not-a-numbers, `nan` when every element is `nan` (ultra.py line 182). -/
noncomputable def nanmax : List FVal → FVal
  | [] => FVal.nan
  | v :: rest => fmax v (nanmax rest)

/-- A robot pose: position (x, y) and heading in degrees
(0 degrees = facing along the positive x-axis). -/
structure Pose where
  x : ℝ
  y : ℝ
  heading : ℝ

/-- The fixed start pose: positions list starts at (0,0), headings at 0
(ultra.py lines 109-112). -/
def origin : Pose := ⟨0, 0, 0⟩

/-- `np.deg2rad`: degrees to radians. -/
noncomputable def deg2rad (d : ℝ) : ℝ := d * Real.pi / 180

/-- One iteration of the movement update loop (ultra.py lines 115-137):
dispatch on the movement label string, exactly as the source's chain of
equality tests, falling through to no change for any other label. -/
noncomputable def nextPose (p : Pose) (cls : String) : Pose :=
  if cls = "Move-Forward" then
    { p with
      x := p.x + Real.cos (deg2rad p.heading) * 2
      y := p.y + Real.sin (deg2rad p.heading) * 2 }
  else if cls = "Slight-Right-Turn" then
    { x := p.x + Real.cos (deg2rad (p.heading - 10)) * 1.5
      y := p.y + Real.sin (deg2rad (p.heading - 10)) * 1.5
      heading := p.heading - 10 }
  else if cls = "Sharp-Right-Turn" then
    { p with heading := p.heading - 25 }
  else if cls = "Slight-Left-Turn" then
    { x := p.x + Real.cos (deg2rad (p.heading + 10)) * 1.5
      y := p.y + Real.sin (deg2rad (p.heading + 10)) * 1.5
      heading := p.heading + 10 }
  else p

/-- The pose list produced by running the movement loop from pose `p`
over the given labels: `p` itself followed by the poses after each label. -/
noncomputable def trajFrom (p : Pose) : List String → List Pose
  | [] => [p]
  | cls :: rest => p :: trajFrom (nextPose p cls) rest

/-- The full trajectory (source `positions` zipped with `headings`,
ultra.py lines 109-140): starts at the origin pose, one further pose per
movement label, each obtained from the previous by `nextPose`. -/
noncomputable def buildTrajectory (labels : List String) : List Pose :=
  trajFrom origin labels

/-- The 24 fixed sensor bearings in degrees (ultra.py lines 74-78). -/
def anglesDeg : Fin 24 → ℝ :=
  ![180, -165, -150, -135, -120, -105, -90, -75,
    -60, -45, -30, -15, 0, 15, 30, 45,
    60, 75, 90, 105, 120, 135, 150, 165]

/-- The sensor bearings converted to radians (ultra.py line 81). -/
noncomputable def anglesRad (i : Fin 24) : ℝ := deg2rad (anglesDeg i)

/-- Distance below which an obstacle counts as close (ultra.py line 101). -/
def OBSTACLE_THRESHOLD : ℝ := 30

/-- `movement_colors.get(move_class, "gray")` (ultra.py lines 88-93, 176). -/
def movementColors (cls : String) : String :=
  if cls = "Move-Forward" then "green"
  else if cls = "Slight-Right-Turn" then "orange"
  else if cls = "Sharp-Right-Turn" then "red"
  else if cls = "Slight-Left-Turn" then "blue"
  else "gray"

/-- One row of the input table: 24 range readings and a movement label. -/
structure SensorFrame where
  readings : Fin 24 → FVal
  cls : String

/-- Default frame used only as the `getD` fallback (indices are always in
range when it is consulted). -/
def dfltFrame : SensorFrame := ⟨fun _ => FVal.nan, ""⟩

/-- All readings of the whole dataset, frame by frame
(`data[sensor_cols].values`, ultra.py line 182). -/
def allReadings (data : List SensorFrame) : List FVal :=
  (data.map (fun fr => (List.finRange 24).map fr.readings)).flatten

/-- Sensor-to-global projection of reading `i` from a pose (ultra.py
lines 222-230): local offset `reading * (cos, sin)` of the bearing plus
the robot heading (radians), translated by the robot position. -/
noncomputable def projectPt (pose : Pose) (readings : Fin 24 → FVal)
    (i : Fin 24) : FVal × FVal :=
  (((readings i).mul (FVal.fin (Real.cos (anglesRad i + deg2rad pose.heading)))).add
      (FVal.fin pose.x),
   ((readings i).mul (FVal.fin (Real.sin (anglesRad i + deg2rad pose.heading)))).add
      (FVal.fin pose.y))

/-- The visual state the update callback draws for one frame. -/
structure RenderState where
  moveClass : String
  baseColor : String
  rmax : FVal
  highlights : Set (Fin 24)
  path : List (ℝ × ℝ)
  robotPos : ℝ × ℝ
  headingAngle : ℝ
  arrow : ℝ × ℝ
  obstaclePts : Fin 24 → FVal × FVal

/-- The body of the update callback (ultra.py lines 164-235) at a valid
frame index `k`:
* `rmax` is `np.nanmax(data[sensor_cols].values) * 1.1` (line 182);
* `highlights` is the set of sensor indices with `readings[i] < 30`
  (lines 187-189; the loop runs over indices 0..23 only, so the vertex
  appended to close the radar loop is never consulted);
* `path` is `positions[:frame+1]` (line 197);
* pose marker, heading arrow and obstacle points use `positions[frame]`
  and `headings[frame]` (lines 200-230). -/
noncomputable def renderAt (data : List SensorFrame) (k : ℕ) : RenderState :=
  let fr := data.getD k dfltFrame
  let traj := buildTrajectory (data.map SensorFrame.cls)
  let pose := traj.getD k origin
  { moveClass := fr.cls
    baseColor := movementColors fr.cls
    rmax := (nanmax (allReadings data)).mul (FVal.fin 1.1)
    highlights := {i | FVal.lt (fr.readings i) OBSTACLE_THRESHOLD}
    path := (traj.map (fun p => (p.x, p.y))).take (k + 1)
    robotPos := (pose.x, pose.y)
    headingAngle := pose.heading
    arrow := (Real.cos (deg2rad pose.heading) * 10, Real.sin (deg2rad pose.heading) * 10)
    obstaclePts := fun i => projectPt pose fr.readings i }

/-- Calling the update callback with an arbitrary integer frame index.
`data.loc[frame, ...]` (ultra.py line 169) raises a KeyError for any
label outside the RangeIndex 0..N-1, before anything is drawn; a valid
index renders that frame's state. -/
noncomputable def update (data : List SensorFrame) (frame : ℤ) : Option RenderState :=
  if 0 ≤ frame ∧ frame < (data.length : ℤ) then some (renderAt data frame.toNat)
  else none

/-- The Euclidean distance between two poses' positions. -/
noncomputable def euclidDist (p q : Pose) : ℝ :=
  Real.sqrt ((q.x - p.x) ^ 2 + (q.y - p.y) ^ 2)

/-- The step length the movement loop travels for one label: 2 for
Move-Forward, 1.5 for either slight turn, 0 for Sharp-Right-Turn and for
any unrecognized label. -/
def stepLen (cls : String) : ℝ :=
  if cls = "Move-Forward" then 2
  else if cls = "Slight-Right-Turn" then 1.5
  else if cls = "Sharp-Right-Turn" then 0
  else if cls = "Slight-Left-Turn" then 1.5
  else 0

/-- The heading increment (degrees) the movement loop applies for one
label. -/
def headingDelta (cls : String) : ℝ :=
  if cls = "Move-Forward" then 0
  else if cls = "Slight-Right-Turn" then -10
  else if cls = "Sharp-Right-Turn" then -25
  else if cls = "Slight-Left-Turn" then 10
  else 0

/-- A concrete sensor frame for instantiating theorems: every reading 100,
label Move-Forward. -/
def frameA : SensorFrame := ⟨fun _ => FVal.fin 100, "Move-Forward"⟩

/-- A concrete one-frame dataset for instantiating theorems. -/
def dataA : List SensorFrame := [frameA]

/-! ## Helper lemmas about the trajectory fold -/

theorem trajFrom_length (labels : List String) :
    ∀ p : Pose, (trajFrom p labels).length = labels.length + 1 := by
  induction labels with
  | nil => intro p; rfl
  | cons c rest ih => intro p; simp [trajFrom, ih]

theorem trajFrom_getD_zero (labels : List String) (p d : Pose) :
    (trajFrom p labels).getD 0 d = p := by
  cases labels <;> rfl

theorem trajFrom_getD_succ (labels : List String) :
    ∀ (p : Pose) (i : ℕ), i < labels.length →
      (trajFrom p labels).getD (i + 1) origin
        = nextPose ((trajFrom p labels).getD i origin) (labels.getD i "") := by
  induction labels with
  | nil => intro p i h; exact absurd h (Nat.not_lt_zero i)
  | cons c rest ih =>
    intro p i h
    cases i with
    | zero =>
      simp only [trajFrom, List.getD_cons_succ, List.getD_cons_zero]
      rw [trajFrom_getD_zero]
    | succ i =>
      simp only [trajFrom, List.getD_cons_succ]
      exact ih (nextPose p c) i (Nat.lt_of_succ_lt_succ h)

theorem nextPose_heading (p : Pose) (cls : String) :
    (nextPose p cls).heading = p.heading + headingDelta cls := by
  unfold nextPose headingDelta
  split_ifs <;> simp <;> ring

theorem trajFrom_heading (labels : List String) :
    ∀ (p : Pose) (k : ℕ), k ≤ labels.length →
      ((trajFrom p labels).getD k origin).heading
        = p.heading + ((labels.take k).map headingDelta).sum := by
  induction labels with
  | nil =>
    intro p k h
    cases Nat.le_zero.mp h
    simp [trajFrom]
  | cons c rest ih =>
    intro p k h
    cases k with
    | zero =>
      rw [trajFrom_getD_zero]
      simp
    | succ k =>
      simp only [trajFrom, List.getD_cons_succ, List.take_succ_cons, List.map_cons,
        List.sum_cons]
      rw [ih (nextPose p c) k (Nat.le_of_succ_le_succ h), nextPose_heading]
      ring

theorem sqrt_trig (θ c : ℝ) (hc : 0 ≤ c) :
    Real.sqrt ((Real.cos θ * c) ^ 2 + (Real.sin θ * c) ^ 2) = c := by
  have hs := Real.sin_sq_add_cos_sq θ
  have h : (Real.cos θ * c) ^ 2 + (Real.sin θ * c) ^ 2 = c ^ 2 := by
    linear_combination (c ^ 2) * hs
  rw [h, Real.sqrt_sq hc]

theorem dist_shift (a b θ c : ℝ) (hc : 0 ≤ c) :
    Real.sqrt ((a + Real.cos θ * c - a) ^ 2 + (b + Real.sin θ * c - b) ^ 2) = c := by
  have h1 : a + Real.cos θ * c - a = Real.cos θ * c := by ring
  have h2 : b + Real.sin θ * c - b = Real.sin θ * c := by ring
  rw [h1, h2]
  exact sqrt_trig θ c hc

theorem dist_nextPose (p : Pose) (cls : String) :
    euclidDist p (nextPose p cls) = stepLen cls := by
  unfold euclidDist nextPose stepLen
  split_ifs
  · exact dist_shift p.x p.y (deg2rad p.heading) 2 (by norm_num)
  · exact dist_shift p.x p.y (deg2rad (p.heading - 10)) 1.5 (by norm_num)
  · simp
  · exact dist_shift p.x p.y (deg2rad (p.heading + 10)) 1.5 (by norm_num)
  · simp

/-! ## C1, C2 -/

/-- C1: the motion model is a total function of (pose, label): Move-Forward
keeps the heading and advances 2 units along the current heading;
Slight-Right-Turn subtracts 10 degrees and advances 1.5 units along the new
heading; Sharp-Right-Turn subtracts 25 degrees and does not translate;
Slight-Left-Turn adds 10 degrees and advances 1.5 units along the new
heading; any other label leaves the pose unchanged.  Translation is always
(cos, sin) of the heading converted from degrees to radians, scaled by the
magnitude. -/
theorem c1_motion_model (p : Pose) :
    nextPose p "Move-Forward"
        = ⟨p.x + Real.cos (deg2rad p.heading) * 2,
           p.y + Real.sin (deg2rad p.heading) * 2, p.heading⟩
  ∧ nextPose p "Slight-Right-Turn"
        = ⟨p.x + Real.cos (deg2rad (p.heading - 10)) * 1.5,
           p.y + Real.sin (deg2rad (p.heading - 10)) * 1.5, p.heading - 10⟩
  ∧ nextPose p "Sharp-Right-Turn" = ⟨p.x, p.y, p.heading - 25⟩
  ∧ nextPose p "Slight-Left-Turn"
        = ⟨p.x + Real.cos (deg2rad (p.heading + 10)) * 1.5,
           p.y + Real.sin (deg2rad (p.heading + 10)) * 1.5, p.heading + 10⟩
  ∧ ∀ cls : String, cls ≠ "Move-Forward" → cls ≠ "Slight-Right-Turn" →
      cls ≠ "Sharp-Right-Turn" → cls ≠ "Slight-Left-Turn" → nextPose p cls = p := by
  refine ⟨rfl, rfl, rfl, rfl, ?_⟩
  intro cls h1 h2 h3 h4
  simp [nextPose, h1, h2, h3, h4]

/-- Witness for C1 at a concrete pose and the unrecognized label "Stop". -/
theorem c1_motion_model_w : nextPose ⟨1, 2, 3⟩ "Stop" = ⟨1, 2, 3⟩ :=
  (c1_motion_model ⟨1, 2, 3⟩).2.2.2.2 "Stop" (by decide) (by decide) (by decide)
    (by decide)

/-- C2: the trajectory built by folding the motion model over a label
sequence has length `labels.length + 1`, starts at the origin pose
(0, 0, heading 0), and satisfies `Trajectory[i+1] =
nextPose (Trajectory[i], labels[i])` for every index i. -/
theorem c2_trajectory_fold (labels : List String) :
    (buildTrajectory labels).length = labels.length + 1
  ∧ (buildTrajectory labels).head? = some origin
  ∧ ∀ i : ℕ, i < labels.length →
      (buildTrajectory labels).getD (i + 1) origin
        = nextPose ((buildTrajectory labels).getD i origin) (labels.getD i "") := by
  refine ⟨trajFrom_length labels origin, ?_,
    fun i h => trajFrom_getD_succ labels origin i h⟩
  cases labels <;> rfl

/-- Witness for C2 on the one-label sequence ["Move-Forward"]. -/
theorem c2_trajectory_fold_w :
    (buildTrajectory ["Move-Forward"]).length = ["Move-Forward"].length + 1
  ∧ (buildTrajectory ["Move-Forward"]).head? = some origin
  ∧ (buildTrajectory ["Move-Forward"]).getD 1 origin
      = nextPose ((buildTrajectory ["Move-Forward"]).getD 0 origin)
          (["Move-Forward"].getD 0 "") := by
  obtain ⟨h1, h2, h3⟩ := c2_trajectory_fold ["Move-Forward"]
  exact ⟨h1, h2, h3 0 (by decide)⟩

/-! ## Helper lemmas about the renderer and float values -/

theorem update_eq_renderAt (data : List SensorFrame) (frame : ℤ)
    (h0 : 0 ≤ frame) (h1 : frame < (data.length : ℤ)) :
    update data frame = some (renderAt data frame.toNat) := by
  unfold update
  rw [if_pos ⟨h0, h1⟩]

theorem update_some_inv (data : List SensorFrame) (frame : ℤ) (rs : RenderState)
    (h : update data frame = some rs) :
    0 ≤ frame ∧ frame < (data.length : ℤ) ∧ renderAt data frame.toNat = rs := by
  unfold update at h
  split at h
  · next hc => exact ⟨hc.1, hc.2, Option.some.inj h⟩
  · cases h

theorem lt_iff_fin (r : FVal) (t : ℝ) :
    FVal.lt r t ↔ ∃ v : ℝ, r = FVal.fin v ∧ v < t := by
  cases r with
  | nan => simp [FVal.lt]
  | fin v => simp [FVal.lt]

/-! ## C3, C5, C6 -/

/-- C3: for every pose, reading vector and sensor index, the projected
obstacle point is the pose position translated by the reading times
(cos, sin) of the bearing plus the heading, the angle sum evaluated in
radians; at the zero pose it is exactly the reading times (cos, sin) of the
bearing alone. -/
theorem c3_projection (pose : Pose) (readings : Fin 24 → FVal) (i : Fin 24) :
    projectPt pose readings i
      = (((readings i).mul
            (FVal.fin (Real.cos (deg2rad (anglesDeg i) + deg2rad pose.heading)))).add
            (FVal.fin pose.x),
         ((readings i).mul
            (FVal.fin (Real.sin (deg2rad (anglesDeg i) + deg2rad pose.heading)))).add
            (FVal.fin pose.y))
  ∧ projectPt origin readings i
      = ((readings i).mul (FVal.fin (Real.cos (deg2rad (anglesDeg i)))),
         (readings i).mul (FVal.fin (Real.sin (deg2rad (anglesDeg i))))) := by
  constructor
  · rfl
  · have hz : deg2rad (0 : ℝ) = 0 := by unfold deg2rad; ring
    cases hr : readings i with
    | nan => simp [projectPt, origin, anglesRad, hz, hr, FVal.mul, FVal.add]
    | fin v => simp [projectPt, origin, anglesRad, hz, hr, FVal.mul, FVal.add]

/-- C5: the close-obstacle highlight set of a rendered frame is exactly the
set of sensor indices whose reading is finite and strictly below the
threshold 30; a not-a-number reading is never highlighted because the IEEE
comparison `nan < 30` is false. -/
theorem c5_highlight_set (data : List SensorFrame) (frame : ℤ) (rs : RenderState)
    (h : update data frame = some rs) :
    rs.highlights
      = {i : Fin 24 | ∃ v : ℝ,
          (data.getD frame.toNat dfltFrame).readings i = FVal.fin v ∧ v < 30} := by
  obtain ⟨-, -, hrs⟩ := update_some_inv data frame rs h
  rw [← hrs]
  show {i : Fin 24 |
      FVal.lt ((data.getD frame.toNat dfltFrame).readings i) OBSTACLE_THRESHOLD} = _
  ext i
  simp only [Set.mem_setOf_eq, lt_iff_fin, OBSTACLE_THRESHOLD]

/-- Witness for C5 on a one-frame dataset whose readings are all 100. -/
theorem c5_highlight_set_w :
    (renderAt dataA 0).highlights
      = {i : Fin 24 | ∃ v : ℝ,
          (dataA.getD (0 : ℤ).toNat dfltFrame).readings i = FVal.fin v ∧ v < 30} :=
  c5_highlight_set dataA 0 (renderAt dataA 0)
    (update_eq_renderAt dataA 0 (by decide) (by decide))

/-- C6: a not-a-number reading projects to a point that is not-a-number in
both coordinates, and is never in the close-obstacle highlight set,
whatever the threshold; the substitution is a value, not an error. -/
theorem c6_nan_propagation (pose : Pose) (readings : Fin 24 → FVal) (i : Fin 24)
    (h : readings i = FVal.nan) :
    (projectPt pose readings i).1 = FVal.nan
  ∧ (projectPt pose readings i).2 = FVal.nan
  ∧ ∀ t : ℝ, ¬ FVal.lt (readings i) t := by
  refine ⟨?_, ?_, ?_⟩ <;> simp [projectPt, h, FVal.mul, FVal.add, FVal.lt]

/-- Witness for C6 at the zero pose with an all-not-a-number reading
vector and threshold 5. -/
theorem c6_nan_propagation_w :
    (projectPt origin (fun _ => FVal.nan) (0 : Fin 24)).1 = FVal.nan
  ∧ (projectPt origin (fun _ => FVal.nan) (0 : Fin 24)).2 = FVal.nan
  ∧ ¬ FVal.lt ((fun _ : Fin 24 => FVal.nan) (0 : Fin 24)) 5 := by
  obtain ⟨h1, h2, h3⟩ := c6_nan_propagation origin (fun _ => FVal.nan) (0 : Fin 24) rfl
  exact ⟨h1, h2, h3 5⟩

/-! ## C9, C10 -/

/-- C9: consecutive trajectory poses are a fixed distance apart determined
by the label alone: 2 for Move-Forward, 1.5 for either slight turn, 0 for
Sharp-Right-Turn and for any unrecognized label; in particular always one
of 0, 1.5, 2. -/
theorem c9_step_distance (labels : List String) (i : ℕ) (h : i < labels.length) :
    euclidDist ((buildTrajectory labels).getD i origin)
        ((buildTrajectory labels).getD (i + 1) origin)
      = stepLen (labels.getD i "")
  ∧ stepLen (labels.getD i "") ∈ ({0, 1.5, 2} : Set ℝ) := by
  constructor
  · unfold buildTrajectory
    rw [trajFrom_getD_succ labels origin i h]
    exact dist_nextPose _ _
  · unfold stepLen
    split_ifs <;> norm_num

/-- Witness for C9 on the one-label sequence ["Move-Forward"]. -/
theorem c9_step_distance_w :
    euclidDist ((buildTrajectory ["Move-Forward"]).getD 0 origin)
        ((buildTrajectory ["Move-Forward"]).getD 1 origin)
      = stepLen (["Move-Forward"].getD 0 "")
  ∧ stepLen (["Move-Forward"].getD 0 "") ∈ ({0, 1.5, 2} : Set ℝ) :=
  c9_step_distance ["Move-Forward"] 0 (by decide)

/-- C10: the stored heading is never wrapped: the heading of trajectory
pose k is exactly the sum of the per-label heading increments over the
first k labels, and the rendered frame's heading angle, heading arrow and
sensor projection all use that raw trajectory heading. -/
theorem c10_heading_unwrapped (labels : List String) (k : ℕ) (hk : k ≤ labels.length) :
    ((buildTrajectory labels).getD k origin).heading
      = ((labels.take k).map headingDelta).sum
  ∧ ∀ (data : List SensorFrame) (frame : ℤ) (rs : RenderState),
      update data frame = some rs →
        rs.headingAngle
          = ((buildTrajectory (data.map SensorFrame.cls)).getD frame.toNat origin).heading
        ∧ rs.arrow = (Real.cos (deg2rad rs.headingAngle) * 10,
                      Real.sin (deg2rad rs.headingAngle) * 10)
        ∧ rs.obstaclePts = fun i =>
            projectPt ((buildTrajectory (data.map SensorFrame.cls)).getD frame.toNat origin)
              ((data.getD frame.toNat dfltFrame).readings) i := by
  constructor
  · unfold buildTrajectory
    rw [trajFrom_heading labels origin k hk]
    show origin.heading + _ = _
    simp [origin]
  · intro data frame rs h
    obtain ⟨-, -, hrs⟩ := update_some_inv data frame rs h
    subst hrs
    exact ⟨rfl, rfl, rfl⟩

/-- Witness for C10: 36 consecutive Sharp-Right-Turns accumulate heading
-900 degrees, not a wrapped value. -/
theorem c10_heading_unwrapped_w :
    ((buildTrajectory (List.replicate 36 "Sharp-Right-Turn")).getD 36 origin).heading
      = -900 := by
  have h := (c10_heading_unwrapped (List.replicate 36 "Sharp-Right-Turn") 36 (by simp)).1
  have hd : headingDelta "Sharp-Right-Turn" = -25 := rfl
  rw [h, List.take_replicate, List.map_replicate, hd, List.sum_replicate]
  norm_num

/-! ## Helper lemmas about nanmax -/

theorem nanmax_eq_nan (l : List FVal) (h : nanmax l = FVal.nan) :
    ∀ v : ℝ, FVal.fin v ∉ l := by
  induction l with
  | nil => simp
  | cons w rest ih =>
    unfold nanmax at h
    cases w with
    | nan =>
      simp only [fmax] at h
      intro v hv
      rcases List.mem_cons.mp hv with h1 | h1
      · exact FVal.noConfusion h1
      · exact ih h v h1
    | fin a =>
      exfalso
      cases hr : nanmax rest <;> rw [hr] at h <;> simp [fmax] at h

theorem nanmax_mem (l : List FVal) :
    ∀ m : ℝ, nanmax l = FVal.fin m → FVal.fin m ∈ l := by
  induction l with
  | nil => intro m h; cases h
  | cons w rest ih =>
    intro m h
    unfold nanmax at h
    cases w with
    | nan =>
      simp only [fmax] at h
      exact List.mem_cons_of_mem _ (ih m h)
    | fin a =>
      cases hr : nanmax rest with
      | nan =>
        rw [hr] at h
        simp only [fmax, FVal.fin.injEq] at h
        subst h
        exact List.mem_cons_self _ _
      | fin b =>
        rw [hr] at h
        simp only [fmax, FVal.fin.injEq] at h
        rcases max_choice a b with hm | hm
        · rw [hm] at h
          subst h
          exact List.mem_cons_self _ _
        · rw [hm] at h
          subst h
          exact List.mem_cons_of_mem _ (ih b hr)

theorem nanmax_ge (l : List FVal) :
    ∀ m v : ℝ, nanmax l = FVal.fin m → FVal.fin v ∈ l → v ≤ m := by
  induction l with
  | nil => intro m v _ hv; cases hv
  | cons w rest ih =>
    intro m v h hv
    unfold nanmax at h
    rcases List.mem_cons.mp hv with h1 | h1
    · subst h1
      cases hr : nanmax rest with
      | nan =>
        rw [hr] at h
        simp only [fmax, FVal.fin.injEq] at h
        exact le_of_eq h
      | fin b =>
        rw [hr] at h
        simp only [fmax, FVal.fin.injEq] at h
        rw [← h]
        exact le_max_left _ _
    · cases w with
      | nan =>
        simp only [fmax] at h
        exact ih m v h h1
      | fin a =>
        cases hr : nanmax rest with
        | nan => exact absurd h1 (nanmax_eq_nan rest hr v)
        | fin b =>
          rw [hr] at h
          simp only [fmax, FVal.fin.injEq] at h
          have hb : v ≤ b := ih b v hr h1
          rw [← h]
          exact le_trans hb (le_max_right _ _)

/-! ## C4, C7, C8 -/

/-- C4: the rendered path is the polyline through trajectory poses 0
through frame_index inclusive; at the last frame (frame_index = N-1) it
contains N poses, each the corresponding trajectory pose. -/
theorem c4_path_prefix (data : List SensorFrame) (frame : ℤ) (rs : RenderState)
    (h : update data frame = some rs) :
    rs.path = ((buildTrajectory (data.map SensorFrame.cls)).map
        (fun p => (p.x, p.y))).take (frame.toNat + 1)
  ∧ (frame = (data.length : ℤ) - 1 →
      rs.path.length = data.length
      ∧ ∀ i : ℕ, i < data.length →
          rs.path.getD i (0, 0)
            = ((buildTrajectory (data.map SensorFrame.cls)).map
                (fun p => (p.x, p.y))).getD i (0, 0)) := by
  obtain ⟨h0, h1, hrs⟩ := update_some_inv data frame rs h
  subst hrs
  refine ⟨rfl, ?_⟩
  intro hN
  have ht : frame.toNat + 1 = data.length := by omega
  have hlen : ((buildTrajectory (data.map SensorFrame.cls)).map
      (fun p => (p.x, p.y))).length = data.length + 1 := by
    simp [buildTrajectory, trajFrom_length]
  constructor
  · show (((buildTrajectory (data.map SensorFrame.cls)).map
        (fun p => (p.x, p.y))).take (frame.toNat + 1)).length = data.length
    rw [List.length_take, hlen, ht]
    omega
  · intro i hi
    show ((((buildTrajectory (data.map SensorFrame.cls)).map
        (fun p => (p.x, p.y))).take (frame.toNat + 1)).getD i (0, 0)) = _
    rw [List.getD_eq_getElem?_getD, List.getD_eq_getElem?_getD,
      List.getElem?_take_of_lt (by omega)]

/-- Witness for C4: the one-frame dataset rendered at its last frame
(index 0) has a path of one pose, the whole prefix. -/
theorem c4_path_prefix_w :
    (renderAt dataA 0).path
      = ((buildTrajectory (dataA.map SensorFrame.cls)).map
          (fun p => (p.x, p.y))).take ((0 : ℤ).toNat + 1)
  ∧ (renderAt dataA 0).path.length = dataA.length := by
  have h := c4_path_prefix dataA 0 (renderAt dataA 0)
    (update_eq_renderAt dataA 0 (by decide) (by decide))
  exact ⟨h.1, (h.2 (by decide)).1⟩

/-- C7: a frame index outside [0, N) makes the renderer fail immediately
(no state is produced), and a valid index renders exactly that frame's
data, never a clamped or different frame. -/
theorem c7_frame_index_range (data : List SensorFrame) (frame : ℤ) :
    ((frame < 0 ∨ (data.length : ℤ) ≤ frame) → update data frame = none)
  ∧ (0 ≤ frame → frame < (data.length : ℤ) →
      ∃ rs : RenderState, update data frame = some rs
        ∧ rs.moveClass = (data.getD frame.toNat dfltFrame).cls) := by
  constructor
  · intro h
    have hneg : ¬ (0 ≤ frame ∧ frame < (data.length : ℤ)) := by
      rcases h with h | h
      · exact fun hc => absurd hc.1 (not_le.mpr h)
      · exact fun hc => absurd hc.2 (not_lt.mpr h)
    unfold update
    rw [if_neg hneg]
  · intro h0 h1
    exact ⟨renderAt data frame.toNat, update_eq_renderAt data frame h0 h1, rfl⟩

/-- Witness for C7: frame index 3 on a one-frame dataset is refused. -/
theorem c7_frame_index_range_w : update dataA 3 = none :=
  (c7_frame_index_range dataA 3).1 (Or.inr (by decide))

/-- C8: every rendered frame's radial axis upper bound is the nanmax of
the readings of the whole dataset times 1.1; it is the same value for
every frame, and whenever some reading is finite the nanmax is a reading
value that bounds every finite reading of the dataset. -/
theorem c8_rmax_global (data : List SensorFrame) (frame : ℤ) (rs : RenderState)
    (h : update data frame = some rs) :
    rs.rmax = (nanmax (allReadings data)).mul (FVal.fin 1.1)
  ∧ (∀ (g : ℤ) (rs2 : RenderState), update data g = some rs2 → rs2.rmax = rs.rmax)
  ∧ ∀ m : ℝ, nanmax (allReadings data) = FVal.fin m →
      rs.rmax = FVal.fin (m * 1.1)
      ∧ FVal.fin m ∈ allReadings data
      ∧ ∀ v : ℝ, FVal.fin v ∈ allReadings data → v ≤ m := by
  obtain ⟨-, -, hrs⟩ := update_some_inv data frame rs h
  subst hrs
  refine ⟨rfl, ?_, ?_⟩
  · intro g rs2 h2
    obtain ⟨-, -, hrs2⟩ := update_some_inv data g rs2 h2
    subst hrs2
    rfl
  · intro m hm
    refine ⟨?_, nanmax_mem _ m hm, fun v hv => nanmax_ge _ m v hm hv⟩
    show (nanmax (allReadings data)).mul (FVal.fin 1.1) = _
    rw [hm]
    simp [FVal.mul]

/-- Witness for C8 on the one-frame dataset with all readings 100. -/
theorem c8_rmax_global_w :
    (renderAt dataA 0).rmax = (nanmax (allReadings dataA)).mul (FVal.fin 1.1) :=
  (c8_rmax_global dataA 0 (renderAt dataA 0)
    (update_eq_renderAt dataA 0 (by decide) (by decide))).1
